import Mathlib

/-!
Shallow embedding of the CN-metrics-and-aggregation pipeline of
`src/SAF/features/coordination/helper.py` and of the ternary environment
feature computation of `src/SAF/features/environment/ternary.py`.

External collaborators (cifkit's `Cif`, `ConvexHull`,
`compute_polyhedron_metrics`, `string_parser.get_atom_type_from_label`,
the role classifiers and the `ternary_helper`/`util` helpers) are passed
in as function parameters: the embedded code only orchestrates them, as
the source does.  Python floats are modelled as `ℚ`, Python dicts as
association lists (`List (String × _)`), and Python exceptions as an
`Except PyErr` result.
-/

deriving instance DecidableEq for Except

set_option synthInstance.maxSize 512

namespace SAF

/-- A 3-D position, as stored in a cifkit connection record. -/
abbrev Point : Type := ℚ × ℚ × ℚ

/-- One connection record of `cif.connections[label]`: the source indexes
it as `connection[0]` (connected label), `connection[1]` (distance),
`connection[2]` (reference/central atom position), `connection[3]`
(connected atom position). -/
structure Conn where
  label : String
  dist : ℚ
  refPos : Point
  nbrPos : Point
deriving DecidableEq

/-- The Python exceptions the embedded code can raise.  `unsupportedArity`
is the named condition the specification asks for in §4.4/§7; it is part
of the error vocabulary so that the spec's claim about it can be stated,
but the source never produces it. -/
inductive PyErr where
  | typeError
  | keyError
  | zeroDivisionError
  | unboundLocalError
  | unsupportedArity
deriving DecidableEq

/-- A polyhedron-metrics record: the dict of named numeric descriptors
returned by cifkit's `compute_polyhedron_metrics` (it includes the
`"number_of_vertices"` key, stored in the source as a Python int). -/
abbrev Metrics : Type := List (String × ℚ)

/-- Python dict lookup `d[k]`, as an association-list lookup on the first
matching key; `none` models a `KeyError`. -/
def alist_get? {α : Type} : List (String × α) → String → Option α
  | [], _ => none
  | (k, v) :: rest, key => if k = key then some v else alist_get? rest key

/-- The source reads `"number_of_vertices"` as a Python int and uses it as
a slice bound; the dict value is modelled as `ℚ`, so the int it holds is
recovered as `q.num.toNat`. -/
def qToNat (q : ℚ) : ℕ := q.num.toNat

/-- A Python `for` loop that builds a list and stops at the first raised
exception. -/
def mapME {α β : Type} (f : α → Except PyErr β) : List α → Except PyErr (List β)
  | [] => .ok []
  | a :: l => do
    let b ← f a
    let bs ← mapME f l
    return b :: bs

/-! ## Polyhedron Metrics Engine (`get_CN_metrics_per_method`, helper.py lines 9-39) -/

/-- The point-set construction of helper.py lines 19-28:
`connection_data = connections[label][: CN]`; only if
`len(connection_data) > 3` are the neighbor positions collected, with the
central atom position (`connection_data[0][2]`) appended last; otherwise
the (site, method) pair is skipped (`continue`), yielding `none` here. -/
def polyhedron_points_of (connection_data : List Conn) : Option (List Point) :=
  match connection_data with
  | [] => none
  | c0 :: _ =>
    if connection_data.length > 3 then
      some (connection_data.map Conn.nbrPos ++ [c0.refPos])
    else
      none

/-- One iteration of the inner loop of `get_CN_metrics_per_method` for a
given `(method, CN)` pair.  `none` means the loop recorded nothing for the
method (`continue` on a short shell); `some v` means
`site_data[label][method] = v` was assigned, where `v = none` either on a
`ConvexHull` failure (line 34) or when `compute_polyhedron_metrics`
itself returns `None` (line 37, cf. the comment on line 36). -/
def method_entry {H : Type} (connections : String → List Conn)
    (tryHull : List Point → Option H)
    (compute_polyhedron_metrics : List Point → H → Option Metrics)
    (label : String) (mc : String × ℕ) : Option (String × Option Metrics) :=
  match polyhedron_points_of ((connections label).take mc.2) with
  | none => none
  | some pts =>
    match tryHull pts with
    | none => some (mc.1, none)
    | some hull => some (mc.1, compute_polyhedron_metrics pts hull)

/-- Whether the iteration for `(method, CN)` prints the
"Error in determining polyhedron" diagnostic (helper.py line 33): exactly
when the point set was built and `ConvexHull` raised. -/
def method_printed {H : Type} (connections : String → List Conn)
    (tryHull : List Point → Option H)
    (label : String) (mc : String × ℕ) : Bool :=
  match polyhedron_points_of ((connections label).take mc.2) with
  | none => false
  | some pts => (tryHull pts).isNone

/-- `get_CN_metrics_per_method` (helper.py lines 9-39): for every site
label of `cif.CN_max_gap_per_site` an entry is created, holding one
`(method, value)` pair per non-skipped method.  The per-method dict of
`CN_data` is collapsed to its single `"CN"` integer. -/
def get_CN_metrics_per_method {H : Type}
    (max_gaps_per_label : List (String × List (String × ℕ)))
    (connections : String → List Conn)
    (tryHull : List Point → Option H)
    (compute_polyhedron_metrics : List Point → H → Option Metrics) :
    List (String × List (String × Option Metrics)) :=
  max_gaps_per_label.map fun p =>
    (p.1, p.2.filterMap (method_entry connections tryHull compute_polyhedron_metrics p.1))

/-- The diagnostics printed by `get_CN_metrics_per_method`, in order, as
(site label, method) pairs — one per hull-construction failure. -/
def get_CN_metrics_diag {H : Type}
    (max_gaps_per_label : List (String × List (String × ℕ)))
    (connections : String → List Conn)
    (tryHull : List Point → Option H) : List (String × String) :=
  (max_gaps_per_label.map fun p =>
    (p.2.filter (method_printed connections tryHull p.1)).map fun mc => (p.1, mc.1)).flatten

/-! ## Neighbor Role Counter (helper.py lines 42-129) -/

/-- The body of the method loop of `_compute_number_of_atoms_in_binary_CN`
(helper.py lines 48-64) for one `(method, data)` pair of site `site_label`.
`get_atom_type` stands for `string_parser.get_atom_type_from_label`.
A `None` metrics record raises `TypeError` at `data["number_of_vertices"]`
(`'NoneType' object is not subscriptable`); a present record missing that
key raises `KeyError`. -/
def binary_CN_method_step
    (label_connections : String → List Conn) (get_atom_type : String → String)
    (A B : String) (site_label : String) (md : String × Option Metrics) :
    Except PyErr (String × List (String × ℚ)) :=
  match md.2 with
  | none => .error .typeError
  | some data =>
    match alist_get? data "number_of_vertices" with
    | none => .error .keyError
    | some nv =>
      let CN_connections := (label_connections site_label).take (qToNat nv)
      let counts := CN_connections.foldl
        (fun (c : ℕ × ℕ) conn =>
          let parsed := get_atom_type conn.label
          if parsed = A then (c.1 + 1, c.2)
          else if parsed = B then (c.1, c.2 + 1)
          else c) (0, 0)
      .ok (md.1, [("A_count", (counts.1 : ℚ)), ("B_count", (counts.2 : ℚ))])

/-- `_compute_number_of_atoms_in_binary_CN` (helper.py lines 42-65). -/
def compute_number_of_atoms_in_binary_CN
    (label_connections : String → List Conn) (get_atom_type : String → String)
    (CN_metrics : List (String × List (String × Option Metrics)))
    (A B : String) :
    Except PyErr (List (String × List (String × List (String × ℚ)))) :=
  mapME (fun site =>
    (mapME (binary_CN_method_step label_connections get_atom_type A B site.1) site.2).map
      fun out => (site.1, out)) CN_metrics

/-- The body of the method loop of `_compute_number_of_atoms_in_ternary_CN`
(helper.py lines 74-94). -/
def ternary_CN_method_step
    (label_connections : String → List Conn) (get_atom_type : String → String)
    (R M X : String) (site_label : String) (md : String × Option Metrics) :
    Except PyErr (String × List (String × ℚ)) :=
  match md.2 with
  | none => .error .typeError
  | some data =>
    match alist_get? data "number_of_vertices" with
    | none => .error .keyError
    | some nv =>
      let CN_connections := (label_connections site_label).take (qToNat nv)
      let counts := CN_connections.foldl
        (fun (c : ℕ × ℕ × ℕ) conn =>
          let parsed := get_atom_type conn.label
          if parsed = R then (c.1 + 1, c.2.1, c.2.2)
          else if parsed = M then (c.1, c.2.1 + 1, c.2.2)
          else if parsed = X then (c.1, c.2.1, c.2.2 + 1)
          else c) (0, 0, 0)
      .ok (md.1, [("R_count", (counts.1 : ℚ)), ("M_count", (counts.2.1 : ℚ)),
        ("X_count", (counts.2.2 : ℚ))])

/-- `_compute_number_of_atoms_in_ternary_CN` (helper.py lines 68-95). -/
def compute_number_of_atoms_in_ternary_CN
    (label_connections : String → List Conn) (get_atom_type : String → String)
    (CN_metrics : List (String × List (String × Option Metrics)))
    (R M X : String) :
    Except PyErr (List (String × List (String × List (String × ℚ)))) :=
  mapME (fun site =>
    (mapME (ternary_CN_method_step label_connections get_atom_type R M X site.1) site.2).map
      fun out => (site.1, out)) CN_metrics

/-- The body of the method loop of
`_compute_number_of_atoms_in_quaternary_CN` (helper.py lines 104-128). -/
def quaternary_CN_method_step
    (label_connections : String → List Conn) (get_atom_type : String → String)
    (A B C D : String) (site_label : String) (md : String × Option Metrics) :
    Except PyErr (String × List (String × ℚ)) :=
  match md.2 with
  | none => .error .typeError
  | some data =>
    match alist_get? data "number_of_vertices" with
    | none => .error .keyError
    | some nv =>
      let CN_connections := (label_connections site_label).take (qToNat nv)
      let counts := CN_connections.foldl
        (fun (c : ℕ × ℕ × ℕ × ℕ) conn =>
          let parsed := get_atom_type conn.label
          if parsed = A then (c.1 + 1, c.2.1, c.2.2.1, c.2.2.2)
          else if parsed = B then (c.1, c.2.1 + 1, c.2.2.1, c.2.2.2)
          else if parsed = C then (c.1, c.2.1, c.2.2.1 + 1, c.2.2.2)
          else if parsed = D then (c.1, c.2.1, c.2.2.1, c.2.2.2 + 1)
          else c) (0, 0, 0, 0)
      .ok (md.1, [("A_count", (counts.1 : ℚ)), ("B_count", (counts.2.1 : ℚ)),
        ("C_count", (counts.2.2.1 : ℚ)), ("D_count", (counts.2.2.2 : ℚ))])

/-- `_compute_number_of_atoms_in_quaternary_CN` (helper.py lines 98-129). -/
def compute_number_of_atoms_in_quaternary_CN
    (label_connections : String → List Conn) (get_atom_type : String → String)
    (CN_metrics : List (String × List (String × Option Metrics)))
    (A B C D : String) :
    Except PyErr (List (String × List (String × List (String × ℚ)))) :=
  mapME (fun site =>
    (mapME (quaternary_CN_method_step label_connections get_atom_type A B C D site.1) site.2).map
      fun out => (site.1, out)) CN_metrics

/-! ## Multi-Level Reducer, level 1
(`_compute_min_max_avg_per_atomic_label`, helper.py lines 132-154) -/

/-- Python `min` over a list; the source only applies it to nonempty
lists (on `[]` Python would raise `ValueError`, an unreachable case here,
given the value `0`). -/
def pymin : List ℚ → ℚ
  | [] => 0
  | x :: xs => xs.foldl min x

/-- Python `max` over a list; nonempty in all uses, as for `pymin`. -/
def pymax : List ℚ → ℚ
  | [] => 0
  | x :: xs => xs.foldl max x

/-- The `{"min": _, "max": _, "avg": _}` record built on helper.py
lines 149-153. -/
structure Stats where
  min : ℚ
  max : ℚ
  avg : ℚ
deriving DecidableEq

/-- helper.py lines 150-152: `min`, `max` and `sum/len` of the collected
values of one metric. -/
def mkStats (vs : List ℚ) : Stats :=
  ⟨pymin vs, pymax vs, vs.sum / (vs.length : ℚ)⟩

/-- helper.py lines 143-145: append value `v` under key `k` in the
`metrics` accumulator, creating the key (at the end, as Python dict
insertion does) if it is not yet present. -/
def append_val : List (String × List ℚ) → String → ℚ → List (String × List ℚ)
  | [], k, v => [(k, [v])]
  | (k0, vs) :: rest, k, v =>
    if k0 = k then (k0, vs ++ [v]) :: rest else (k0, vs) :: append_val rest k v

/-- The method loop of helper.py lines 140-145 over one site's
`(method, value)` pairs, carrying the `metrics` accumulator.  A `None`
value raises `TypeError` at `for key in site_data[label][method]`
(`'NoneType' object is not iterable`). -/
def collect_go (acc : List (String × List ℚ)) :
    List (String × Option Metrics) → Except PyErr (List (String × List ℚ))
  | [] => .ok acc
  | (_, none) :: _ => .error .typeError
  | (_, some kvs) :: rest =>
    collect_go (kvs.foldl (fun a p => append_val a p.1 p.2) acc) rest

/-- `_compute_min_max_avg_per_atomic_label` (helper.py lines 132-154).
In the source the same function is applied both to `CN_metrics` (whose
values may be `None`) and to the role-count data (whose values are always
present dicts); the latter call sites wrap their values in `some`. -/
def compute_min_max_avg_per_atomic_label
    (site_data : List (String × List (String × Option Metrics))) :
    Except PyErr (List (String × List (String × Stats))) :=
  mapME (fun site =>
    (collect_go [] site.2).map fun ms => (site.1, ms.map fun q => (q.1, mkStats q.2)))
    site_data

/-! ## Multi-Level Reducer, level 2
(`_compute_global_avg_for_min_max_avg_metrics`, helper.py lines 157-182) -/

/-- The `{"min": {...}, "max": {...}, "avg": {...}}` result of the global
reduction, each statistic holding a metric-keyed dict. -/
structure GlobalAvg where
  min : List (String × ℚ)
  max : List (String × ℚ)
  avg : List (String × ℚ)
deriving DecidableEq

/-- One update of `global_sums[stat]`/`global_counts[stat]` for a metric
(helper.py lines 172-176): create the `(0, 0)` cell if missing, then add
the value and increment the count.  The two dicts always share their key
set, so they are modelled as one association list of (sum, count). -/
def bump : List (String × ℚ × ℕ) → String → ℚ → List (String × ℚ × ℕ)
  | [], m, v => [(m, v, 1)]
  | (m0, s, c) :: rest, m, v =>
    if m0 = m then (m0, s + v, c + 1) :: rest else (m0, s, c) :: bump rest m v

/-- All `(metric, values)` pairs of the level-1 result, in the order the
nested loops of helper.py lines 169-176 visit them. -/
def all_entries (level1 : List (String × List (String × Stats))) : List (String × Stats) :=
  (level1.map fun p => p.2).flatten

/-- The `global_sums[stat]`/`global_counts[stat]` dicts after the summing
loop, for one statistic `get ∈ {Stats.min, Stats.max, Stats.avg}`. -/
def accum_stat (get : Stats → ℚ) (level1 : List (String × List (String × Stats))) :
    List (String × ℚ × ℕ) :=
  (all_entries level1).foldl (fun st q => bump st q.1 (get q.2)) []

/-- helper.py lines 178-181: `global_avg[stat][metric] =
float(sum_value / global_counts[stat][metric])` for one statistic. -/
def global_of (get : Stats → ℚ) (level1 : List (String × List (String × Stats))) :
    List (String × ℚ) :=
  (accum_stat get level1).map fun t => (t.1, t.2.1 / (t.2.2 : ℚ))

/-- `_compute_global_avg_for_min_max_avg_metrics` (helper.py
lines 157-182): the three statistics are accumulated and averaged
independently. -/
def compute_global_avg_for_min_max_avg_metrics
    (level1 : List (String × List (String × Stats))) : GlobalAvg :=
  ⟨global_of Stats.min level1, global_of Stats.max level1, global_of Stats.avg level1⟩

/-! ## Feature Assembler (`get_CN_atom_count_data`, helper.py lines 185-204) -/

/-- Wrap role-count data in `some` so the level-1 reducer (whose embedded
input type allows `None` values) can consume it; in Python the dicts are
passed as-is and are never `None` here. -/
def wrap_counts (counts : List (String × List (String × List (String × ℚ)))) :
    List (String × List (String × Option Metrics)) :=
  counts.map fun p => (p.1, p.2.map fun q => (q.1, some q.2))

/-- `get_CN_atom_count_data` (helper.py lines 185-204).  The three
arity branches on lines 190-198 are independent `if` statements with
mutually exclusive conditions, embedded as an if/else chain; when none
fires, `CN_atom_count_data` is never assigned and line 200 raises
`UnboundLocalError` — embedded as that error at the dispatch point.
The `Cif` handle is split into its consumed parts
(`unique_elements`, `CN_max_gap_per_site`, `connections`) and the
external collaborators are parameters. -/
def get_CN_atom_count_data {H : Type}
    (unique_elements : List String)
    (max_gaps_per_label : List (String × List (String × ℕ)))
    (connections : String → List Conn)
    (tryHull : List Point → Option H)
    (compute_polyhedron_metrics : List Point → H → Option Metrics)
    (get_atom_type : String → String)
    (get_binary_AB_elements : List String → String × String)
    (get_ternary_RMX_elements : List String → String × String × String)
    (get_quaternary_ABCD_elements : List String → String × String × String × String) :
    Except PyErr (GlobalAvg × GlobalAvg) := do
  let CN_metrics :=
    get_CN_metrics_per_method max_gaps_per_label connections tryHull compute_polyhedron_metrics
  let min_max_avg_CN_metrics ← compute_min_max_avg_per_atomic_label CN_metrics
  let CN_atom_count_data ←
    if unique_elements.length = 2 then
      let (A, B) := get_binary_AB_elements unique_elements
      compute_number_of_atoms_in_binary_CN connections get_atom_type CN_metrics A B
    else if unique_elements.length = 3 then
      let (R, M, X) := get_ternary_RMX_elements unique_elements
      compute_number_of_atoms_in_ternary_CN connections get_atom_type CN_metrics R M X
    else if unique_elements.length = 4 then
      let (A, B, C, D) := get_quaternary_ABCD_elements unique_elements
      compute_number_of_atoms_in_quaternary_CN connections get_atom_type CN_metrics A B C D
    else
      .error .unboundLocalError
  let min_max_avg_CN_count ← compute_min_max_avg_per_atomic_label (wrap_counts CN_atom_count_data)
  let avg_CN_metrics := compute_global_avg_for_min_max_avg_metrics min_max_avg_CN_metrics
  let avg_CN_atom_count := compute_global_avg_for_min_max_avg_metrics min_max_avg_CN_count
  return (avg_CN_metrics, avg_CN_atom_count)

/-! ## Ternary environment features (`ternary.py`, `compute_features`) -/

/-- The `best_label_details` record of a `best_site_data` entry, as read
by ternary.py lines 71-85: shortest and second-shortest distance, and the
`counts` dict mapping each observed distance to its count (modelled as a
total function since the helper builds it over exactly the observed
distances). -/
structure BestLabelDetails where
  shortest_dist : ℚ
  second_shortest_dist : ℚ
  counts : ℚ → ℚ

/-- A `best_site_data` entry, as read by ternary.py lines 62-93. -/
structure BestSiteEntry where
  best_label : String
  avg_shortest_dist : ℚ
  avg_second_shortest_dist_count : ℚ
  best_label_details : BestLabelDetails

/-- The 9-tuple returned by
`get_R_and_M_and_X_count_in_best_label_per_element` (ternary.py
lines 27-37). -/
structure BestLabelCounts where
  R_count_at_R_shortest_dist : ℚ
  R_count_at_M_shortest_dist : ℚ
  R_count_at_X_shortest_dist : ℚ
  M_count_at_R_shortest_dist : ℚ
  M_count_at_M_shortest_dist : ℚ
  M_count_at_X_shortest_dist : ℚ
  X_count_at_R_shortest_dist : ℚ
  X_count_at_M_shortest_dist : ℚ
  X_count_at_X_shortest_dist : ℚ

/-- The 9-tuple returned by `get_avg_R_and_M_and_X_count_in_per_element`
(ternary.py lines 38-48); the source's binder names spell "shorest". -/
structure AvgLabelCounts where
  R_avg_count_at_R_shorest_dist : ℚ
  R_avg_count_at_M_shorest_dist : ℚ
  R_avg_count_at_X_shorest_dist : ℚ
  M_avg_count_at_R_shorest_dist : ℚ
  M_avg_count_at_M_shorest_dist : ℚ
  M_avg_count_at_X_shorest_dist : ℚ
  X_avg_count_at_R_shorest_dist : ℚ
  X_avg_count_at_M_shorest_dist : ℚ
  X_avg_count_at_X_shorest_dist : ℚ

/-- Python float division, which raises `ZeroDivisionError` on a zero
denominator (ternary.py lines 118-120 perform it unguarded). -/
def pydiv (a b : ℚ) : Except PyErr ℚ :=
  if b = 0 then .error .zeroDivisionError else .ok (a / b)

/-- `compute_features` of ternary.py.  The external helpers it calls are
supplied through their outputs (for helpers of `connections` and the role
elements alone, already applied) or as functions (for
`compute_homoatomic_dist_by_site_shortest_dist`, which is applied to the
computed best labels): `R`, `M`, `X` stand for
`get_ternary_RMX_elements(list(cif.unique_elements))`; `avg_homo3` for
`compute_avg_homoatomic_dist_by_site_shortest_dist(connections, R, M, X)`;
`best_counts` and `avg_counts` for the two 9-tuple helpers;
`best_site_data` for `extract_best_labels(first_second_dist_per_site_data)`;
`tol_count` for `extract_shortest_dist_with_tol(...)[e]
["shortest_dist_count_within_tol"]`; `avg_tol_count` for
`extract_avg_shortest_dist_with_tol(connections)[e]
["avg_shortest_dist_within_tol_count"]`; `compute_homoatomic` for
`compute_homoatomic_dist_by_site_shortest_dist(connections, ...)`; and
`avg_second_by_first` for `get_avg_second_by_first_shortest_dist_ratio(...)
[e]["avg_second_by_first_shortest_dist"]`.  The three divisions of
lines 118-120 are the only failure points; their evaluation order
(R, then M, then X) is preserved. -/
def compute_features
    (R M X : String)
    (avg_homo3 : ℚ × ℚ × ℚ)
    (best_counts : BestLabelCounts)
    (avg_counts : AvgLabelCounts)
    (best_site_data : String → BestSiteEntry)
    (tol_count : String → ℚ)
    (avg_tol_count : String → ℚ)
    (compute_homoatomic : String → String → String → ℚ × ℚ × ℚ)
    (avg_second_by_first : String → ℚ) :
    Except PyErr (List (String × ℚ)) :=
  let R_avg_homoatomic_dist_by_shortest_dist := avg_homo3.1
  let M_avg_homoatomic_dist_by_shortest_dist := avg_homo3.2.1
  let X_avg_homoatomic_dist_by_shortest_dist := avg_homo3.2.2
  let R_shortest_dist_count_within_tol := tol_count R
  let M_shortest_dist_count_within_tol := tol_count M
  let X_shortest_dist_count_within_tol := tol_count X
  let R_avg_shortest_dist_within_tol_count := avg_tol_count R
  let M_avg_shortest_dist_within_tol_count := avg_tol_count M
  let X_avg_shortest_dist_within_tol_count := avg_tol_count X
  let R_best_label := (best_site_data R).best_label
  let M_best_label := (best_site_data M).best_label
  let X_best_label := (best_site_data X).best_label
  let homo3 := compute_homoatomic R_best_label M_best_label X_best_label
  let R_homoatomic_dist_by_shortest_dist := homo3.1
  let M_homoatomic_dist_by_shortest_dist := homo3.2.1
  let X_homoatomic_dist_by_shortest_dist := homo3.2.2
  let R_shortest_dist := (best_site_data R).best_label_details.shortest_dist
  let M_shortest_dist := (best_site_data M).best_label_details.shortest_dist
  let X_shortest_dist := (best_site_data X).best_label_details.shortest_dist
  let R_second_shortest_dist := (best_site_data R).best_label_details.second_shortest_dist
  let M_second_shortest_dist := (best_site_data M).best_label_details.second_shortest_dist
  let X_second_shortest_dist := (best_site_data X).best_label_details.second_shortest_dist
  let R_shortest_dist_count := (best_site_data R).best_label_details.counts R_shortest_dist
  let M_shortest_dist_count := (best_site_data M).best_label_details.counts M_shortest_dist
  let X_shortest_dist_count := (best_site_data X).best_label_details.counts X_shortest_dist
  let R_second_shortest_dist_count :=
    (best_site_data R).best_label_details.counts R_second_shortest_dist
  let M_second_shortest_dist_count :=
    (best_site_data M).best_label_details.counts M_second_shortest_dist
  let X_second_shortest_dist_count :=
    (best_site_data X).best_label_details.counts X_second_shortest_dist
  let R_avg_shortest_dist_count := (best_site_data R).avg_shortest_dist
  let M_avg_shortest_dist_count := (best_site_data M).avg_shortest_dist
  let X_avg_shortest_dist_count := (best_site_data X).avg_shortest_dist
  let R_avg_second_shortest_dist_count := (best_site_data R).avg_second_shortest_dist_count
  let M_avg_second_shortest_dist_count := (best_site_data M).avg_second_shortest_dist_count
  -- ternary.py line 93 reads `best_site_data[M]`, not `best_site_data[X]`
  let X_avg_second_shortest_dist_count := (best_site_data M).avg_second_shortest_dist_count
  let R_avg_second_by_first_shortest_dist := avg_second_by_first R
  let M_avg_second_by_first_shortest_dist := avg_second_by_first M
  let X_avg_second_by_first_shortest_dist := avg_second_by_first X
  match pydiv R_second_shortest_dist R_shortest_dist,
      pydiv M_second_shortest_dist M_shortest_dist,
      pydiv X_second_shortest_dist X_shortest_dist with
  | .error e, _, _ => .error e
  | .ok _, .error e, _ => .error e
  | .ok _, .ok _, .error e => .error e
  | .ok R_ratio, .ok M_ratio, .ok X_ratio =>
    .ok [
      ("ENV_R_shortest_dist_count", R_shortest_dist_count),
      ("ENV_M_shortest_dist_count", M_shortest_dist_count),
      ("ENV_X_shortest_dist_count", X_shortest_dist_count),
      ("ENV_R_avg_shortest_dist_count", R_avg_shortest_dist_count),
      ("ENV_M_avg_shortest_dist_count", M_avg_shortest_dist_count),
      ("ENV_X_avg_shortest_dist_count", X_avg_shortest_dist_count),
      ("ENV_R_shortest_tol_dist_count", R_shortest_dist_count_within_tol),
      ("ENV_M_shortest_tol_dist_count", M_shortest_dist_count_within_tol),
      ("ENV_X_shortest_tol_dist_count", X_shortest_dist_count_within_tol),
      ("ENV_R_avg_shortest_dist_within_tol_count", R_avg_shortest_dist_within_tol_count),
      ("ENV_M_avg_shortest_dist_within_tol_count", M_avg_shortest_dist_within_tol_count),
      ("ENV_X_avg_shortest_dist_within_tol_count", X_avg_shortest_dist_within_tol_count),
      ("ENV_R_second_by_first_shortest_dist", R_ratio),
      ("ENV_M_second_by_first_shortest_dist", M_ratio),
      ("ENV_X_second_by_first_shortest_dist", X_ratio),
      ("ENV_R_avg_second_by_first_shortest_dist", R_avg_second_by_first_shortest_dist),
      ("ENV_M_avg_second_by_first_shortest_dist", M_avg_second_by_first_shortest_dist),
      ("ENV_X_avg_second_by_first_shortest_dist", X_avg_second_by_first_shortest_dist),
      ("ENV_R_second_shortest_dist_count", R_second_shortest_dist_count),
      ("ENV_M_second_shortest_dist_count", M_second_shortest_dist_count),
      ("ENV_X_second_shortest_dist_count", X_second_shortest_dist_count),
      ("ENV_R_avg_second_shortest_dist_count", R_avg_second_shortest_dist_count),
      ("ENV_M_avg_second_shortest_dist_count", M_avg_second_shortest_dist_count),
      ("ENV_X_avg_second_shortest_dist_count", X_avg_second_shortest_dist_count),
      ("ENV_R_homoatomic_dist_by_shortest_dist", R_homoatomic_dist_by_shortest_dist),
      ("ENV_M_homoatomic_dist_by_shortest_dist", M_homoatomic_dist_by_shortest_dist),
      ("ENV_X_homoatomic_dist_by_shortest_dist", X_homoatomic_dist_by_shortest_dist),
      ("ENV_R_avg_homoatomic_dist_by_shortest_dist", R_avg_homoatomic_dist_by_shortest_dist),
      ("ENV_M_avg_homoatomic_dist_by_shortest_dist", M_avg_homoatomic_dist_by_shortest_dist),
      ("ENV_X_avg_homoatomic_dist_by_shortest_dist", X_avg_homoatomic_dist_by_shortest_dist),
      ("ENV_R_count_at_R_shortest_dist", best_counts.R_count_at_R_shortest_dist),
      ("ENV_M_count_at_R_shortest_dist", best_counts.M_count_at_R_shortest_dist),
      ("ENV_X_count_at_R_shortest_dist", best_counts.X_count_at_R_shortest_dist),
      ("ENV_R_avg_count_at_R_shortest_dist", avg_counts.R_avg_count_at_R_shorest_dist),
      ("ENV_M_avg_count_at_R_shortest_dist", avg_counts.M_avg_count_at_R_shorest_dist),
      ("ENV_X_avg_count_at_R_shortest_dist", avg_counts.X_avg_count_at_R_shorest_dist),
      ("ENV_R_count_at_M_shortest_dist", best_counts.R_count_at_M_shortest_dist),
      ("ENV_M_count_at_M_shortest_dist", best_counts.M_count_at_M_shortest_dist),
      ("ENV_X_count_at_M_shortest_dist", best_counts.X_count_at_M_shortest_dist),
      ("ENV_R_avg_count_at_M_shortest_dist", avg_counts.R_avg_count_at_M_shorest_dist),
      ("ENV_M_avg_count_at_M_shortest_dist", avg_counts.M_avg_count_at_M_shorest_dist),
      ("ENV_X_avg_count_at_M_shortest_dist", avg_counts.X_avg_count_at_M_shorest_dist),
      ("ENV_R_count_at_X_shortest_dist", best_counts.R_count_at_X_shortest_dist),
      ("ENV_M_count_at_X_shortest_dist", best_counts.M_count_at_X_shortest_dist),
      ("ENV_X_count_at_X_shortest_dist", best_counts.X_count_at_X_shortest_dist),
      ("ENV_R_avg_count_at_X_shortest_dist", avg_counts.R_avg_count_at_X_shorest_dist),
      ("ENV_M_avg_count_at_X_shortest_dist", avg_counts.M_avg_count_at_X_shorest_dist),
      ("ENV_X_avg_count_at_X_shortest_dist", avg_counts.X_avg_count_at_X_shorest_dist)]

/-! ## Concrete scenario data -/

/-- The connection table of the §8 scenario: site "Th1" with neighbors
Sb1(d=2.9), Sb2(d=3.0), Sb3(d=3.05), Sb4(d=3.1), Th2(d=3.3), nearest
first; positions are arbitrary distinct points with the central atom at
the origin. -/
def scenario_conns : String → List Conn := fun label =>
  if label = "Th1" then
    [⟨"Sb1", 29/10, (0, 0, 0), (1, 0, 0)⟩,
     ⟨"Sb2", 3, (0, 0, 0), (0, 1, 0)⟩,
     ⟨"Sb3", 61/20, (0, 0, 0), (0, 0, 1)⟩,
     ⟨"Sb4", 31/10, (0, 0, 0), (-1, 0, 0)⟩,
     ⟨"Th2", 33/10, (0, 0, 0), (0, -1, 0)⟩]
  else []

/-- A concrete `get_atom_type_from_label` for the scenario's labels. -/
def scenario_parse : String → String := fun l =>
  if l = "Th1" ∨ l = "Th2" then "Th" else "Sb"

/-- A metrics entry is a present record containing the
`"number_of_vertices"` key. -/
def has_nv : Option Metrics → Bool
  | none => false
  | some kvs => (alist_get? kvs "number_of_vertices").isSome

/-- Two nested label/method tables have the same site labels in the same
order and, sitewise, the same method keys in the same order. -/
def same_shape {γ δ : Type} (x : List (String × List (String × γ)))
    (y : List (String × List (String × δ))) : Prop :=
  x.map Prod.fst = y.map Prod.fst ∧
  List.Forall₂ (fun p q => p.2.map Prod.fst = q.2.map Prod.fst) x y

/-- A concrete all-present one-site, one-method metrics table. -/
def c9_table : List (String × List (String × Option Metrics)) :=
  [("Th1", [("m1", some [("number_of_vertices", 4)])])]

/-- All `Stats` records recorded for metric `m` in a level-1 table, in
visit order (one per site entry carrying `m`, when method keys are
duplicate-free). -/
def metric_stats (m : String) (level1 : List (String × List (String × Stats))) :
    List Stats :=
  (all_entries level1).filterMap fun q => if q.1 = m then some q.2 else none

/-- The value of statistic `get` for metric `m` at each site that reports
`m`, in site order: the per-site contributions to the global mean. -/
def site_contrib (get : Stats → ℚ) (m : String)
    (level1 : List (String × List (String × Stats))) : List ℚ :=
  level1.filterMap fun p => (alist_get? p.2 m).map get

/-- A concrete level-1 table: two sites, only the first reporting the
metric "vol". -/
def c5_level1 : List (String × List (String × Stats)) :=
  [("s1", [("vol", ⟨1, 3, 2⟩)]), ("s2", [("area", ⟨5, 5, 5⟩)])]

/-! ## Claim theorems -/

/-- Claim C1, counterexample: on a structure with 5 unique elements the
assembler fails with Python's `UnboundLocalError` (the counting branch
never assigned `CN_atom_count_data`), not with a named `UnsupportedArity`
condition. -/
theorem claim_C1_counterexample :
    get_CN_atom_count_data (H := Unit) ["El1", "El2", "El3", "El4", "El5"] []
        (fun _ => []) (fun _ => none) (fun _ _ => none) (fun l => l)
        (fun _ => ("", "")) (fun _ => ("", "", "")) (fun _ => ("", "", "", "")) =
      .error .unboundLocalError ∧
    get_CN_atom_count_data (H := Unit) ["El1", "El2", "El3", "El4", "El5"] []
        (fun _ => []) (fun _ => none) (fun _ _ => none) (fun l => l)
        (fun _ => ("", "")) (fun _ => ("", "", "")) (fun _ => ("", "", "", "")) ≠
      .error .unsupportedArity := by
  constructor
  · rfl
  · decide

/-- Claim C1 (amended): for every structure whose number of unique
elements is not 2, 3 or 4, `get_CN_atom_count_data` fails — by raising
(an `UnboundLocalError` when the preceding reduction succeeded), not by
a named `UnsupportedArity` condition — and no partial feature output is
returned. -/
theorem claim_C1_amended {H : Type}
    (ue : List String) (mg : List (String × List (String × ℕ)))
    (conns : String → List Conn) (th : List Point → Option H)
    (cm : List Point → H → Option Metrics) (parse : String → String)
    (gab : List String → String × String)
    (grmx : List String → String × String × String)
    (gabcd : List String → String × String × String × String)
    (h2 : ue.length ≠ 2) (h3 : ue.length ≠ 3) (h4 : ue.length ≠ 4) :
    (get_CN_atom_count_data ue mg conns th cm parse gab grmx gabcd).isOk = false := by
  unfold get_CN_atom_count_data
  simp only [if_neg h2, if_neg h3, if_neg h4]
  cases compute_min_max_avg_per_atomic_label (get_CN_metrics_per_method mg conns th cm) <;>
    rfl

/-- Claim C1, witness for the amended theorem at a concrete 5-element
input. -/
theorem claim_C1_witness :
    (get_CN_atom_count_data (H := Unit) ["El1", "El2", "El3", "El4", "El5"] []
        (fun _ => []) (fun _ => none) (fun _ _ => none) (fun l => l)
        (fun _ => ("", "")) (fun _ => ("", "", "")) (fun _ => ("", "", "", ""))).isOk =
      false :=
  claim_C1_amended ["El1", "El2", "El3", "El4", "El5"] [] (fun _ => [])
    (fun _ => none) (fun _ _ => none) (fun l => l) (fun _ => ("", ""))
    (fun _ => ("", "", "")) (fun _ => ("", "", "", ""))
    (by decide) (by decide) (by decide)

/-- Claim C2, counterexample: a site whose only method selects CN = 2 gets
an empty method map — the (site, method) pair is omitted entirely, not
mapped to an explicit absent record as the claim states. -/
theorem claim_C2_counterexample :
    alist_get?
      (get_CN_metrics_per_method (H := Unit) [("Th1", [("m1", 2)])]
        (fun _ => [⟨"Sb1", 3, (0, 0, 0), (1, 0, 0)⟩, ⟨"Sb2", 3, (0, 0, 0), (0, 1, 0)⟩])
        (fun _ => none) (fun _ _ => none)) "Th1" = some [] := by
  decide

/-- Claim C3 (code bug, evaluation at the failing input): an explicit
absent (`None`) entry makes the per-site reduction raise `TypeError`
(`'NoneType' object is not iterable` at `for key in site_data[label][method]`)
instead of being excluded from the min/max/avg computation. -/
theorem claim_C3_eval :
    compute_min_max_avg_per_atomic_label [("Th1", [("m1", none)])] = .error .typeError := by
  rfl

/-- Claim C4 (code bug, evaluation at the failing input): a (site, method)
pair whose metrics record is absent (`None`) makes the role counters raise
`TypeError` at `data["number_of_vertices"]` instead of yielding no
RoleCount without error. -/
theorem claim_C4_eval :
    compute_number_of_atoms_in_binary_CN (fun _ => []) (fun l => l)
        [("Th1", [("m1", none)])] "A" "B" = .error .typeError ∧
    compute_number_of_atoms_in_ternary_CN (fun _ => []) (fun l => l)
        [("Th1", [("m1", none)])] "R" "M" "X" = .error .typeError := by
  exact ⟨rfl, rfl⟩

/-- Claim C6, counterexample: in the §8 scenario, with the metrics
reporting `number_of_vertices = 4`, the RoleCount is
`{A_count: 0, B_count: 4}` (the top-4 neighbors are all Sb), not
`{A_count: 1, B_count: 3}` as the claim states. -/
theorem claim_C6_counterexample :
    compute_number_of_atoms_in_binary_CN scenario_conns scenario_parse
        [("Th1", [("m1", some [("number_of_vertices", 4)])])] "Th" "Sb" =
      .ok [("Th1", [("m1", [("A_count", 0), ("B_count", 4)])])] ∧
    compute_number_of_atoms_in_binary_CN scenario_conns scenario_parse
        [("Th1", [("m1", some [("number_of_vertices", 4)])])] "Th" "Sb" ≠
      .ok [("Th1", [("m1", [("A_count", 1), ("B_count", 3)])])] := by
  constructor
  · decide
  · decide

/-- Claim C6 (amended): in the §8 scenario the polyhedron point set has
5 points — the 4 neighbor positions in order plus the central atom
appended last — and the RoleCount computed from the metrics' reported
vertex count is `{A_count: 0, B_count: 4}` at vertex count 4 (the shell
that built the polyhedron: Th2 at rank 5 lies outside it) and
`{A_count: 1, B_count: 4}` at vertex count 5; it is never
`{A_count: 1, B_count: 3}`. -/
theorem claim_C6_amended :
    polyhedron_points_of ((scenario_conns "Th1").take 4) =
      some [(1, 0, 0), (0, 1, 0), (0, 0, 1), (-1, 0, 0), (0, 0, 0)] ∧
    (((scenario_conns "Th1").take 4).map Conn.nbrPos ++
        [((scenario_conns "Th1").headD ⟨"", 0, (0, 0, 0), (0, 0, 0)⟩).refPos]).length = 5 ∧
    compute_number_of_atoms_in_binary_CN scenario_conns scenario_parse
        [("Th1", [("m1", some [("number_of_vertices", 4)])])] "Th" "Sb" =
      .ok [("Th1", [("m1", [("A_count", 0), ("B_count", 4)])])] ∧
    compute_number_of_atoms_in_binary_CN scenario_conns scenario_parse
        [("Th1", [("m1", some [("number_of_vertices", 5)])])] "Th" "Sb" =
      .ok [("Th1", [("m1", [("A_count", 1), ("B_count", 4)])])] := by
  refine ⟨by decide, by decide, by decide, by decide⟩

/-- Claim C10: the ternary environment feature computation divides each
role's second-shortest distance by its shortest distance with no guard
against a zero denominator; it succeeds exactly when every role's
best-label shortest distance is nonzero. -/
theorem claim_C10 (R M X : String) (avg_homo3 : ℚ × ℚ × ℚ)
    (best_counts : BestLabelCounts) (avg_counts : AvgLabelCounts)
    (best_site_data : String → BestSiteEntry)
    (tol_count avg_tol_count : String → ℚ)
    (compute_homoatomic : String → String → String → ℚ × ℚ × ℚ)
    (avg_second_by_first : String → ℚ) :
    (compute_features R M X avg_homo3 best_counts avg_counts best_site_data
        tol_count avg_tol_count compute_homoatomic avg_second_by_first).isOk = true ↔
      ((best_site_data R).best_label_details.shortest_dist ≠ 0 ∧
       (best_site_data M).best_label_details.shortest_dist ≠ 0 ∧
       (best_site_data X).best_label_details.shortest_dist ≠ 0) := by
  by_cases hR : (best_site_data R).best_label_details.shortest_dist = 0 <;>
    by_cases hM : (best_site_data M).best_label_details.shortest_dist = 0 <;>
      by_cases hX : (best_site_data X).best_label_details.shortest_dist = 0 <;>
        simp [compute_features, pydiv, hR, hM, hX, Except.isOk, Except.toBool]

/-- Claim C7: whenever `compute_features` produces an output, the value
under the key `"ENV_X_avg_second_shortest_dist_count"` is role M's
`avg_second_shortest_dist_count` (read from `best_site_data[M]` on
ternary.py line 93), so on every input where M's and X's values differ the
X-named output equals M's value and differs from X's. -/
theorem claim_C7 (R M X : String) (avg_homo3 : ℚ × ℚ × ℚ)
    (best_counts : BestLabelCounts) (avg_counts : AvgLabelCounts)
    (best_site_data : String → BestSiteEntry)
    (tol_count avg_tol_count : String → ℚ)
    (compute_homoatomic : String → String → String → ℚ × ℚ × ℚ)
    (avg_second_by_first : String → ℚ)
    (out : List (String × ℚ))
    (hok : compute_features R M X avg_homo3 best_counts avg_counts best_site_data
        tol_count avg_tol_count compute_homoatomic avg_second_by_first = .ok out)
    (hdiff : (best_site_data M).avg_second_shortest_dist_count ≠
      (best_site_data X).avg_second_shortest_dist_count) :
    alist_get? out "ENV_X_avg_second_shortest_dist_count" =
      some ((best_site_data M).avg_second_shortest_dist_count) ∧
    alist_get? out "ENV_X_avg_second_shortest_dist_count" ≠
      some ((best_site_data X).avg_second_shortest_dist_count) := by
  unfold compute_features at hok
  simp only [pydiv] at hok
  split at hok
  · exact absurd hok (by simp)
  · exact absurd hok (by simp)
  · exact absurd hok (by simp)
  · rw [Except.ok.injEq] at hok
    subst hok
    refine ⟨rfl, ?_⟩
    simp [alist_get?, hdiff]

/-- Claim C7, witness: a concrete instantiation where M's and X's values
differ (7 vs 9) and the X-named output carries M's value 7. -/
theorem claim_C7_witness :
    alist_get?
        ((compute_features "R" "M" "X" (0, 0, 0)
          ⟨0, 0, 0, 0, 0, 0, 0, 0, 0⟩ ⟨0, 0, 0, 0, 0, 0, 0, 0, 0⟩
          (fun e => if e = "M" then ⟨"M1", 0, 7, ⟨1, 2, fun _ => 0⟩⟩
            else ⟨"Z1", 0, 9, ⟨1, 2, fun _ => 0⟩⟩)
          (fun _ => 0) (fun _ => 0) (fun _ _ _ => (0, 0, 0)) (fun _ => 0)).toOption.getD [])
        "ENV_X_avg_second_shortest_dist_count" = some 7 ∧
    some (7 : ℚ) ≠ some (9 : ℚ) := by
  have h := claim_C7 "R" "M" "X" (0, 0, 0)
    ⟨0, 0, 0, 0, 0, 0, 0, 0, 0⟩ ⟨0, 0, 0, 0, 0, 0, 0, 0, 0⟩
    (fun e => if e = "M" then ⟨"M1", 0, 7, ⟨1, 2, fun _ => 0⟩⟩
      else ⟨"Z1", 0, 9, ⟨1, 2, fun _ => 0⟩⟩)
    (fun _ => 0) (fun _ => 0) (fun _ _ _ => (0, 0, 0)) (fun _ => 0)
    ((compute_features "R" "M" "X" (0, 0, 0)
      ⟨0, 0, 0, 0, 0, 0, 0, 0, 0⟩ ⟨0, 0, 0, 0, 0, 0, 0, 0, 0⟩
      (fun e => if e = "M" then ⟨"M1", 0, 7, ⟨1, 2, fun _ => 0⟩⟩
        else ⟨"Z1", 0, 9, ⟨1, 2, fun _ => 0⟩⟩)
      (fun _ => 0) (fun _ => 0) (fun _ _ _ => (0, 0, 0)) (fun _ => 0)).toOption.getD [])
    (by rfl) (by simp)
  exact ⟨h.1, by norm_num⟩

/-! ## Shape preservation of the role counters (claim C9) -/

theorem mapME_ok_of_forall {α β : Type} (f : α → Except PyErr β) (P : α → β → Prop)
    (l : List α) (h : ∀ a ∈ l, ∃ b, f a = .ok b ∧ P a b) :
    ∃ out, mapME f l = .ok out ∧ List.Forall₂ P l out := by
  induction l with
  | nil => exact ⟨[], rfl, List.Forall₂.nil⟩
  | cons a l ih =>
    obtain ⟨b, hfa, hP⟩ := h a (List.mem_cons_self a l)
    obtain ⟨out, hout, hF⟩ := ih (fun x hx => h x (List.mem_cons_of_mem a hx))
    refine ⟨b :: out, ?_, List.Forall₂.cons hP hF⟩
    simp only [mapME, hfa, hout]
    rfl

theorem forall₂_fst {α β δ : Type} (l : List (α × β)) (m : List (α × δ))
    (h : List.Forall₂ (fun p q => p.1 = q.1) l m) :
    l.map Prod.fst = m.map Prod.fst := by
  induction h with
  | nil => rfl
  | cons hpq _ ih => simp [hpq, ih]

/-- The common site/method looping skeleton of the three role counters
preserves the table's shape whenever every method step succeeds. -/
theorem counter_sites_shape {γ : Type}
    (F : String → (String × Option Metrics) → Except PyErr (String × γ))
    (hF : ∀ lab q, has_nv q.2 = true → ∃ r, F lab q = .ok r ∧ r.1 = q.1)
    (CN_metrics : List (String × List (String × Option Metrics)))
    (hp : ∀ p ∈ CN_metrics, ∀ q ∈ p.2, has_nv q.2 = true) :
    ∃ out,
      mapME (fun site => (mapME (F site.1) site.2).map fun o => (site.1, o)) CN_metrics =
        .ok out ∧ same_shape CN_metrics out := by
  have h : ∀ p ∈ CN_metrics,
      ∃ r, (mapME (F p.1) p.2).map (fun o => (p.1, o)) = .ok r ∧
        (p.1 = r.1 ∧ p.2.map Prod.fst = r.2.map Prod.fst) := by
    intro p hpmem
    obtain ⟨inner, hinner, hforall⟩ := mapME_ok_of_forall (F p.1) (fun q r => q.1 = r.1) p.2
      (fun q hq => by
        obtain ⟨r, hr, hr1⟩ := hF p.1 q (hp p hpmem q hq)
        exact ⟨r, hr, hr1.symm⟩)
    refine ⟨(p.1, inner), ?_, rfl, forall₂_fst _ _ hforall⟩
    rw [hinner]
    rfl
  obtain ⟨out, hout, hF2⟩ := mapME_ok_of_forall _ _ CN_metrics h
  exact ⟨out, hout, forall₂_fst _ _ (hF2.imp fun _ _ hc => hc.1), hF2.imp fun _ _ hc => hc.2⟩

/-- Each counter's method step succeeds on any entry that is a present
record containing `number_of_vertices`, keeping the method key. -/
theorem binary_step_ok (lc : String → List Conn) (gat : String → String) (A B : String)
    (lab : String) (q : String × Option Metrics) (hq : has_nv q.2 = true) :
    ∃ r, binary_CN_method_step lc gat A B lab q = .ok r ∧ r.1 = q.1 := by
  obtain ⟨qm, qd⟩ := q
  cases qd with
  | none => simp [has_nv] at hq
  | some data =>
    simp only [has_nv] at hq
    obtain ⟨nv, hnv⟩ := Option.isSome_iff_exists.mp hq
    unfold binary_CN_method_step
    dsimp only
    rw [hnv]
    exact ⟨_, rfl, rfl⟩

theorem ternary_step_ok (lc : String → List Conn) (gat : String → String) (R M X : String)
    (lab : String) (q : String × Option Metrics) (hq : has_nv q.2 = true) :
    ∃ r, ternary_CN_method_step lc gat R M X lab q = .ok r ∧ r.1 = q.1 := by
  obtain ⟨qm, qd⟩ := q
  cases qd with
  | none => simp [has_nv] at hq
  | some data =>
    simp only [has_nv] at hq
    obtain ⟨nv, hnv⟩ := Option.isSome_iff_exists.mp hq
    unfold ternary_CN_method_step
    dsimp only
    rw [hnv]
    exact ⟨_, rfl, rfl⟩

theorem quaternary_step_ok (lc : String → List Conn) (gat : String → String)
    (A B C D : String) (lab : String) (q : String × Option Metrics)
    (hq : has_nv q.2 = true) :
    ∃ r, quaternary_CN_method_step lc gat A B C D lab q = .ok r ∧ r.1 = q.1 := by
  obtain ⟨qm, qd⟩ := q
  cases qd with
  | none => simp [has_nv] at hq
  | some data =>
    simp only [has_nv] at hq
    obtain ⟨nv, hnv⟩ := Option.isSome_iff_exists.mp hq
    unfold quaternary_CN_method_step
    dsimp only
    rw [hnv]
    exact ⟨_, rfl, rfl⟩

/-- Claim C9: on a metrics table whose entries are all present records
containing `number_of_vertices`, each of the three role counters succeeds
and returns a table with exactly the same site labels and, per site, the
same method keys — none added, none dropped. -/
theorem claim_C9
    (label_connections : String → List Conn) (get_atom_type : String → String)
    (CN_metrics : List (String × List (String × Option Metrics)))
    (A B R M X Aq Bq Cq Dq : String)
    (hp : ∀ p ∈ CN_metrics, ∀ q ∈ p.2, has_nv q.2 = true) :
    (∃ out, compute_number_of_atoms_in_binary_CN label_connections get_atom_type
        CN_metrics A B = .ok out ∧ same_shape CN_metrics out) ∧
    (∃ out, compute_number_of_atoms_in_ternary_CN label_connections get_atom_type
        CN_metrics R M X = .ok out ∧ same_shape CN_metrics out) ∧
    (∃ out, compute_number_of_atoms_in_quaternary_CN label_connections get_atom_type
        CN_metrics Aq Bq Cq Dq = .ok out ∧ same_shape CN_metrics out) := by
  exact ⟨counter_sites_shape (binary_CN_method_step label_connections get_atom_type A B)
      (binary_step_ok label_connections get_atom_type A B) CN_metrics hp,
    counter_sites_shape (ternary_CN_method_step label_connections get_atom_type R M X)
      (ternary_step_ok label_connections get_atom_type R M X) CN_metrics hp,
    counter_sites_shape (quaternary_CN_method_step label_connections get_atom_type Aq Bq Cq Dq)
      (quaternary_step_ok label_connections get_atom_type Aq Bq Cq Dq) CN_metrics hp⟩

/-- Claim C9, witness: the shape-preservation theorem applied to a
concrete all-present one-site, one-method metrics table. -/
theorem claim_C9_witness :
    (∃ out, compute_number_of_atoms_in_binary_CN scenario_conns scenario_parse
        c9_table "Th" "Sb" = .ok out ∧ same_shape c9_table out) ∧
    (∃ out, compute_number_of_atoms_in_ternary_CN scenario_conns scenario_parse
        c9_table "Th" "Sb" "Nd" = .ok out ∧ same_shape c9_table out) ∧
    (∃ out, compute_number_of_atoms_in_quaternary_CN scenario_conns scenario_parse
        c9_table "Th" "Sb" "Nd" "Fe" = .ok out ∧ same_shape c9_table out) :=
  claim_C9 scenario_conns scenario_parse c9_table
    "Th" "Sb" "Th" "Sb" "Nd" "Th" "Sb" "Nd" "Fe" (by decide)

/-! ## Order and mean lemmas for the statistical fold -/

theorem foldl_min_le_init (l : List ℚ) (a : ℚ) : l.foldl min a ≤ a := by
  induction l generalizing a with
  | nil => exact le_refl a
  | cons x xs ih => exact le_trans (ih (min a x)) (min_le_left a x)

theorem foldl_min_le_mem (l : List ℚ) (a x : ℚ) (hx : x ∈ l) : l.foldl min a ≤ x := by
  induction l generalizing a with
  | nil => cases hx
  | cons y ys ih =>
    rcases List.mem_cons.mp hx with h | h
    · subst h
      exact le_trans (foldl_min_le_init ys (min a x)) (min_le_right a x)
    · exact ih (min a y) h

theorem init_le_foldl_max (l : List ℚ) (a : ℚ) : a ≤ l.foldl max a := by
  induction l generalizing a with
  | nil => exact le_refl a
  | cons x xs ih => exact le_trans (le_max_left a x) (ih (max a x))

theorem mem_le_foldl_max (l : List ℚ) (a x : ℚ) (hx : x ∈ l) : x ≤ l.foldl max a := by
  induction l generalizing a with
  | nil => cases hx
  | cons y ys ih =>
    rcases List.mem_cons.mp hx with h | h
    · subst h
      exact le_trans (le_max_right a x) (init_le_foldl_max ys (max a x))
    · exact ih (max a y) h

theorem pymin_le_mem (l : List ℚ) (x : ℚ) (hx : x ∈ l) : pymin l ≤ x := by
  cases l with
  | nil => cases hx
  | cons y ys =>
    rcases List.mem_cons.mp hx with h | h
    · subst h
      exact foldl_min_le_init ys x
    · exact foldl_min_le_mem ys y x h

theorem mem_le_pymax (l : List ℚ) (x : ℚ) (hx : x ∈ l) : x ≤ pymax l := by
  cases l with
  | nil => cases hx
  | cons y ys =>
    rcases List.mem_cons.mp hx with h | h
    · subst h
      exact init_le_foldl_max ys x
    · exact mem_le_foldl_max ys y x h

theorem length_mul_le_sum (l : List ℚ) (a : ℚ) (h : ∀ x ∈ l, a ≤ x) :
    (l.length : ℚ) * a ≤ l.sum := by
  induction l with
  | nil => simp
  | cons x xs ih =>
    have hx := h x (List.mem_cons_self x xs)
    have hxs := ih fun y hy => h y (List.mem_cons_of_mem x hy)
    simp only [List.length_cons, List.sum_cons]
    push_cast
    linarith

theorem sum_le_length_mul (l : List ℚ) (b : ℚ) (h : ∀ x ∈ l, x ≤ b) :
    l.sum ≤ (l.length : ℚ) * b := by
  induction l with
  | nil => simp
  | cons x xs ih =>
    have hx := h x (List.mem_cons_self x xs)
    have hxs := ih fun y hy => h y (List.mem_cons_of_mem x hy)
    simp only [List.length_cons, List.sum_cons]
    push_cast
    linarith

theorem mean_bounds (l : List ℚ) (hl : l ≠ []) (a b : ℚ)
    (ha : ∀ x ∈ l, a ≤ x) (hb : ∀ x ∈ l, x ≤ b) :
    a ≤ l.sum / (l.length : ℚ) ∧ l.sum / (l.length : ℚ) ≤ b := by
  have hpos : (0 : ℚ) < (l.length : ℚ) := by
    exact_mod_cast List.length_pos.mpr hl
  constructor
  · rw [le_div_iff₀ hpos]
    calc a * (l.length : ℚ) = (l.length : ℚ) * a := mul_comm a _
    _ ≤ l.sum := length_mul_le_sum l a ha
  · rw [div_le_iff₀ hpos]
    calc l.sum ≤ (l.length : ℚ) * b := sum_le_length_mul l b hb
    _ = b * (l.length : ℚ) := mul_comm _ b

theorem mkStats_bounds (vs : List ℚ) (h : vs ≠ []) :
    (mkStats vs).min ≤ (mkStats vs).avg ∧ (mkStats vs).avg ≤ (mkStats vs).max := by
  refine mean_bounds vs h (pymin vs) (pymax vs) ?_ ?_
  · exact fun x hx => pymin_le_mem vs x hx
  · exact fun x hx => mem_le_pymax vs x hx

/-! ## Invariants of the level-1 reduction -/

theorem mapME_ok_mem {α β : Type} (f : α → Except PyErr β) (l : List α)
    (out : List β) (hok : mapME f l = .ok out) (b : β) (hb : b ∈ out) :
    ∃ a ∈ l, f a = .ok b := by
  induction l generalizing out with
  | nil =>
    cases hok
    cases hb
  | cons a rest ih =>
    rw [mapME] at hok
    cases hfa : f a with
    | error e => rw [hfa] at hok; cases hok
    | ok c =>
      rw [hfa] at hok
      cases hrest : mapME f rest with
      | error e =>
        rw [hrest] at hok
        cases hok
      | ok cs =>
        rw [hrest] at hok
        cases hok
        rcases List.mem_cons.mp hb with h | h
        · exact ⟨a, List.mem_cons_self a rest, h ▸ hfa⟩
        · obtain ⟨x, hx, hfx⟩ := ih cs hrest h
          exact ⟨x, List.mem_cons_of_mem a hx, hfx⟩

theorem append_val_nonempty (acc : List (String × List ℚ)) (k : String) (v : ℚ)
    (h : ∀ p ∈ acc, p.2 ≠ []) : ∀ p ∈ append_val acc k v, p.2 ≠ [] := by
  induction acc with
  | nil =>
    intro p hp
    rw [append_val] at hp
    rcases List.mem_singleton.mp hp with h1
    subst h1
    simp
  | cons q rest ih =>
    obtain ⟨k0, vs⟩ := q
    intro p hp
    rw [append_val] at hp
    by_cases hk : k0 = k
    · rw [if_pos hk] at hp
      rcases List.mem_cons.mp hp with h1 | h1
      · subst h1; simp
      · exact h p (List.mem_cons_of_mem _ h1)
    · rw [if_neg hk] at hp
      rcases List.mem_cons.mp hp with h1 | h1
      · subst h1
        exact h (k0, vs) (List.mem_cons_self _ _)
      · exact ih (fun q hq => h q (List.mem_cons_of_mem _ hq)) p h1

theorem foldl_append_val_nonempty (kvs : List (String × ℚ)) (acc : List (String × List ℚ))
    (h : ∀ p ∈ acc, p.2 ≠ []) :
    ∀ p ∈ kvs.foldl (fun a q => append_val a q.1 q.2) acc, p.2 ≠ [] := by
  induction kvs generalizing acc with
  | nil => exact h
  | cons q rest ih =>
    exact ih (append_val acc q.1 q.2) (append_val_nonempty acc q.1 q.2 h)

theorem collect_go_nonempty (l : List (String × Option Metrics))
    (acc ms : List (String × List ℚ)) (h : ∀ p ∈ acc, p.2 ≠ [])
    (hok : collect_go acc l = .ok ms) : ∀ p ∈ ms, p.2 ≠ [] := by
  induction l generalizing acc with
  | nil =>
    cases hok
    exact h
  | cons q rest ih =>
    obtain ⟨k, d⟩ := q
    cases d with
    | none => cases hok
    | some kvs =>
      rw [collect_go] at hok
      exact ih (kvs.foldl (fun a q => append_val a q.1 q.2) acc)
        (foldl_append_val_nonempty kvs acc h) hok

theorem append_val_keys (acc : List (String × List ℚ)) (k : String) (v : ℚ) :
    (append_val acc k v).map Prod.fst =
      if k ∈ acc.map Prod.fst then acc.map Prod.fst else acc.map Prod.fst ++ [k] := by
  induction acc with
  | nil => simp [append_val]
  | cons q rest ih =>
    obtain ⟨k0, vs⟩ := q
    rw [append_val]
    by_cases hk : k0 = k
    · subst hk
      simp
    · rw [if_neg hk]
      simp only [List.map_cons, List.mem_cons, ih]
      by_cases hmem : k ∈ rest.map Prod.fst
      · rw [if_pos hmem, if_pos (Or.inr hmem)]
      · rw [if_neg hmem, if_neg ?_]
        · simp
        · rintro (h1 | h1)
          · exact hk h1.symm
          · exact hmem h1

theorem append_val_keys_nodup (acc : List (String × List ℚ)) (k : String) (v : ℚ)
    (h : (acc.map Prod.fst).Nodup) : ((append_val acc k v).map Prod.fst).Nodup := by
  rw [append_val_keys]
  by_cases hmem : k ∈ acc.map Prod.fst
  · rw [if_pos hmem]
    exact h
  · rw [if_neg hmem]
    refine List.Nodup.append h (List.nodup_singleton k) ?_
    intro a ha hb
    rcases List.mem_singleton.mp hb with h1
    subst h1
    exact hmem ha

theorem foldl_append_val_keys_nodup (kvs : List (String × ℚ))
    (acc : List (String × List ℚ)) (h : (acc.map Prod.fst).Nodup) :
    (((kvs.foldl (fun a q => append_val a q.1 q.2) acc)).map Prod.fst).Nodup := by
  induction kvs generalizing acc with
  | nil => exact h
  | cons q rest ih =>
    exact ih (append_val acc q.1 q.2) (append_val_keys_nodup acc q.1 q.2 h)

theorem collect_go_keys_nodup (l : List (String × Option Metrics))
    (acc ms : List (String × List ℚ)) (h : (acc.map Prod.fst).Nodup)
    (hok : collect_go acc l = .ok ms) : (ms.map Prod.fst).Nodup := by
  induction l generalizing acc with
  | nil =>
    cases hok
    exact h
  | cons q rest ih =>
    obtain ⟨k, d⟩ := q
    cases d with
    | none => cases hok
    | some kvs =>
      rw [collect_go] at hok
      exact ih (kvs.foldl (fun a q => append_val a q.1 q.2) acc)
        (foldl_append_val_keys_nodup kvs acc h) hok

/-- Every site entry of a successful level-1 reduction comes from a
successful `collect_go` run over nonempty value lists. -/
theorem level1_entry_spec (sd : List (String × List (String × Option Metrics)))
    (level1 : List (String × List (String × Stats)))
    (hok : compute_min_max_avg_per_atomic_label sd = .ok level1)
    (p : String × List (String × Stats)) (hp : p ∈ level1) :
    ∃ ms : List (String × List ℚ),
      (∀ q ∈ ms, q.2 ≠ []) ∧ (ms.map Prod.fst).Nodup ∧
      p.2 = ms.map fun q => (q.1, mkStats q.2) := by
  obtain ⟨site, _, hsite⟩ := mapME_ok_mem _ sd level1 hok p hp
  cases hcol : collect_go [] site.2 with
  | error e =>
    rw [compute_min_max_avg_per_atomic_label] at hok
    rw [hcol] at hsite
    cases hsite
  | ok ms =>
    rw [hcol] at hsite
    cases hsite
    exact ⟨ms, collect_go_nonempty site.2 [] ms (by intro q hq; cases hq) hcol,
      collect_go_keys_nodup site.2 [] ms List.nodup_nil hcol, rfl⟩

/-- Well-formedness of level-1 stats: every recorded `Stats` satisfies
`min ≤ avg ≤ max`. -/
theorem level1_wf (sd : List (String × List (String × Option Metrics)))
    (level1 : List (String × List (String × Stats)))
    (hok : compute_min_max_avg_per_atomic_label sd = .ok level1)
    (p : String × List (String × Stats)) (hp : p ∈ level1)
    (q : String × Stats) (hq : q ∈ p.2) :
    q.2.min ≤ q.2.avg ∧ q.2.avg ≤ q.2.max := by
  obtain ⟨ms, hne, _, hmap⟩ := level1_entry_spec sd level1 hok p hp
  rw [hmap] at hq
  obtain ⟨r, hr, hrq⟩ := List.mem_map.mp hq
  cases hrq
  exact mkStats_bounds r.2 (hne r hr)

/-- Method-key uniqueness of level-1 entries. -/
theorem level1_nodup (sd : List (String × List (String × Option Metrics)))
    (level1 : List (String × List (String × Stats)))
    (hok : compute_min_max_avg_per_atomic_label sd = .ok level1)
    (p : String × List (String × Stats)) (hp : p ∈ level1) :
    (p.2.map Prod.fst).Nodup := by
  obtain ⟨ms, _, hnd, hmap⟩ := level1_entry_spec sd level1 hok p hp
  rw [hmap]
  have : (ms.map fun q => (q.1, mkStats q.2)).map Prod.fst = ms.map Prod.fst := by
    simp
  rw [this]
  exact hnd

/-! ## Characterization of the global accumulation -/

theorem alist_get?_bump_ne (st : List (String × ℚ × ℕ)) (m : String) (v : ℚ)
    (k : String) (h : k ≠ m) : alist_get? (bump st m v) k = alist_get? st k := by
  induction st with
  | nil =>
    rw [bump, alist_get?, alist_get?, alist_get?, if_neg ?_]
    intro h1
    exact h h1.symm
  | cons q rest ih =>
    obtain ⟨m0, s, c⟩ := q
    rw [bump]
    by_cases hm : m0 = m
    · rw [if_pos hm, alist_get?, alist_get?, if_neg ?_, if_neg ?_]
      · intro h1
        exact h (hm ▸ h1).symm
      · intro h1
        exact h (hm ▸ h1).symm
    · rw [if_neg hm, alist_get?, alist_get?]
      by_cases hk : m0 = k
      · rw [if_pos hk, if_pos hk]
      · rw [if_neg hk, if_neg hk]
        exact ih

theorem alist_get?_bump_some (st : List (String × ℚ × ℕ)) (m : String) (v : ℚ)
    (s : ℚ) (c : ℕ) (h : alist_get? st m = some (s, c)) :
    alist_get? (bump st m v) m = some (s + v, c + 1) := by
  induction st with
  | nil => cases h
  | cons q rest ih =>
    obtain ⟨m0, s0, c0⟩ := q
    rw [alist_get?] at h
    rw [bump]
    by_cases hm : m0 = m
    · rw [if_pos hm] at h
      rw [if_pos hm, alist_get?, if_pos hm]
      cases h
      rfl
    · rw [if_neg hm] at h
      rw [if_neg hm, alist_get?, if_neg hm]
      exact ih h

theorem alist_get?_bump_none (st : List (String × ℚ × ℕ)) (m : String) (v : ℚ)
    (h : alist_get? st m = none) : alist_get? (bump st m v) m = some (v, 1) := by
  induction st with
  | nil =>
    rw [bump, alist_get?, if_pos rfl]
  | cons q rest ih =>
    obtain ⟨m0, s0, c0⟩ := q
    rw [alist_get?] at h
    rw [bump]
    by_cases hm : m0 = m
    · rw [if_pos hm] at h
      cases h
    · rw [if_neg hm] at h
      rw [if_neg hm, alist_get?, if_neg hm]
      exact ih h

/-- The values that metric `m` contributes under statistic `get` in a run
of entries. -/
def entry_vals (get : Stats → ℚ) (m : String) (entries : List (String × Stats)) : List ℚ :=
  entries.filterMap fun q => if q.1 = m then some (get q.2) else none

theorem foldl_bump_get_some (get : Stats → ℚ) (entries : List (String × Stats))
    (m : String) (st0 : List (String × ℚ × ℕ)) (s : ℚ) (c : ℕ)
    (h : alist_get? st0 m = some (s, c)) :
    alist_get? (entries.foldl (fun st q => bump st q.1 (get q.2)) st0) m =
      some (s + (entry_vals get m entries).sum, c + (entry_vals get m entries).length) := by
  induction entries generalizing st0 s c with
  | nil =>
    rw [entry_vals]
    simpa using h
  | cons q rest ih =>
    rw [List.foldl_cons, entry_vals, List.filterMap_cons]
    by_cases hq : q.1 = m
    · rw [if_pos hq]
      have hstep : alist_get? (bump st0 q.1 (get q.2)) m = some (s + get q.2, c + 1) := by
        rw [hq]
        exact alist_get?_bump_some st0 m (get q.2) s c h
      have := ih (bump st0 q.1 (get q.2)) (s + get q.2) (c + 1) hstep
      rw [this]
      simp only [entry_vals, List.sum_cons, List.length_cons, Option.some.injEq,
        Prod.mk.injEq]
      exact ⟨by ring, by omega⟩
    · rw [if_neg hq]
      have hstep : alist_get? (bump st0 q.1 (get q.2)) m = some (s, c) := by
        rw [alist_get?_bump_ne st0 q.1 (get q.2) m (fun h1 => hq h1.symm)]
        exact h
      have := ih (bump st0 q.1 (get q.2)) s c hstep
      rw [this]
      simp only [entry_vals]

theorem foldl_bump_get_none (get : Stats → ℚ) (entries : List (String × Stats))
    (m : String) (st0 : List (String × ℚ × ℕ))
    (h : alist_get? st0 m = none) (hne : entry_vals get m entries ≠ []) :
    alist_get? (entries.foldl (fun st q => bump st q.1 (get q.2)) st0) m =
      some ((entry_vals get m entries).sum, (entry_vals get m entries).length) := by
  induction entries generalizing st0 with
  | nil => exact absurd rfl hne
  | cons q rest ih =>
    rw [List.foldl_cons, entry_vals, List.filterMap_cons]
    by_cases hq : q.1 = m
    · rw [if_pos hq]
      have hstep : alist_get? (bump st0 q.1 (get q.2)) m = some (get q.2, 1) := by
        rw [hq]
        exact alist_get?_bump_none st0 m (get q.2) h
      have := foldl_bump_get_some get rest m (bump st0 q.1 (get q.2)) (get q.2) 1 hstep
      rw [this]
      simp only [entry_vals, List.sum_cons, List.length_cons, Option.some.injEq,
        Prod.mk.injEq]
      exact ⟨by ring_nf, by omega⟩
    · rw [if_neg hq]
      have hstep : alist_get? (bump st0 q.1 (get q.2)) m = none := by
        rw [alist_get?_bump_ne st0 q.1 (get q.2) m (fun h1 => hq h1.symm)]
        exact h
      have hne2 : entry_vals get m rest ≠ [] := by
        rw [entry_vals, List.filterMap_cons, if_neg hq] at hne
        exact hne
      have := ih (bump st0 q.1 (get q.2)) hstep hne2
      rw [this]
      simp only [entry_vals]

theorem entry_vals_eq_map (get : Stats → ℚ) (m : String)
    (level1 : List (String × List (String × Stats))) :
    entry_vals get m (all_entries level1) = (metric_stats m level1).map get := by
  rw [entry_vals, metric_stats]
  induction all_entries level1 with
  | nil => rfl
  | cons q rest ih =>
    rw [List.filterMap_cons, List.filterMap_cons]
    by_cases hq : q.1 = m
    · rw [if_pos hq, if_pos hq, List.map_cons, ih]
    · rw [if_neg hq, if_neg hq, ih]

theorem accum_stat_get (get : Stats → ℚ) (level1 : List (String × List (String × Stats)))
    (m : String) (h : metric_stats m level1 ≠ []) :
    alist_get? (accum_stat get level1) m =
      some (((metric_stats m level1).map get).sum, (metric_stats m level1).length) := by
  rw [accum_stat]
  have hvals : entry_vals get m (all_entries level1) ≠ [] := by
    rw [entry_vals_eq_map]
    intro h1
    exact h (List.map_eq_nil_iff.mp h1)
  rw [foldl_bump_get_none get (all_entries level1) m [] rfl hvals,
    entry_vals_eq_map, List.length_map]

theorem alist_get?_map_snd {α β : Type} (l : List (String × α)) (f : α → β) (m : String) :
    alist_get? (l.map fun t => (t.1, f t.2)) m = (alist_get? l m).map f := by
  induction l with
  | nil => rfl
  | cons q rest ih =>
    rw [List.map_cons, alist_get?, alist_get?]
    by_cases hq : q.1 = m
    · rw [if_pos hq, if_pos hq]
      rfl
    · rw [if_neg hq, if_neg hq]
      exact ih

theorem global_of_get (get : Stats → ℚ) (level1 : List (String × List (String × Stats)))
    (m : String) (h : metric_stats m level1 ≠ []) :
    alist_get? (global_of get level1) m =
      some (((metric_stats m level1).map get).sum / ((metric_stats m level1).length : ℚ)) := by
  rw [global_of, alist_get?_map_snd (accum_stat get level1) (fun t => t.1 / (t.2 : ℚ)) m,
    accum_stat_get get level1 m h]
  rfl

/-! ## Per-site contributions (claims C5 and C8) -/

theorem filterMap_if_nil {β : Type} (md : List (String × β)) (m : String)
    (h : m ∉ md.map Prod.fst) :
    md.filterMap (fun q => if q.1 = m then some q.2 else none) = [] := by
  induction md with
  | nil => rfl
  | cons q rest ih =>
    rw [List.filterMap_cons, if_neg ?_]
    · exact ih fun h1 => h (List.mem_cons_of_mem _ h1)
    · intro h1
      exact h (List.mem_cons.mpr (Or.inl h1.symm))

theorem filterMap_if_eq_lookup {β : Type} (md : List (String × β)) (m : String)
    (hnd : (md.map Prod.fst).Nodup) :
    md.filterMap (fun q => if q.1 = m then some q.2 else none) =
      (alist_get? md m).toList := by
  induction md with
  | nil => rfl
  | cons q rest ih =>
    rw [List.map_cons, List.nodup_cons] at hnd
    rw [List.filterMap_cons, alist_get?]
    by_cases hq : q.1 = m
    · rw [if_pos hq, if_pos hq, Option.toList_some]
      rw [filterMap_if_nil rest m (hq ▸ hnd.1)]
    · rw [if_neg hq, if_neg hq]
      exact ih hnd.2

theorem filterMap_flatten {α β : Type} (L : List (List α)) (f : α → Option β) :
    L.flatten.filterMap f = (L.map fun l => l.filterMap f).flatten := by
  induction L with
  | nil => rfl
  | cons l rest ih =>
    rw [List.flatten_cons, List.filterMap_append, List.map_cons, List.flatten_cons, ih]

theorem flatten_map_toList {α β : Type} (l : List α) (g : α → Option β) :
    (l.map fun a => (g a).toList).flatten = l.filterMap g := by
  induction l with
  | nil => rfl
  | cons a rest ih =>
    rw [List.map_cons, List.flatten_cons, List.filterMap_cons]
    cases hg : g a with
    | none => rw [Option.toList_none, List.nil_append, ih]
    | some b => rw [Option.toList_some, List.singleton_append, ih]

theorem filterMap_option_map {α β γ : Type} (l : List α) (g : α → Option β) (f : β → γ) :
    l.filterMap (fun a => (g a).map f) = (l.filterMap g).map f := by
  induction l with
  | nil => rfl
  | cons a rest ih =>
    rw [List.filterMap_cons, List.filterMap_cons]
    cases hg : g a with
    | none => simp [ih]
    | some b => simp [ih]

theorem metric_stats_eq_lookup (m : String)
    (level1 : List (String × List (String × Stats)))
    (hnd : ∀ p ∈ level1, (p.2.map Prod.fst).Nodup) :
    metric_stats m level1 = level1.filterMap fun p => alist_get? p.2 m := by
  rw [metric_stats, all_entries, filterMap_flatten, List.map_map]
  rw [show (fun l => l.filterMap fun q : String × Stats =>
      if q.1 = m then some q.2 else none) ∘ Prod.snd =
    (fun p : String × List (String × Stats) => p.2.filterMap fun q =>
      if q.1 = m then some q.2 else none) from rfl]
  rw [List.map_congr_left fun p hp => filterMap_if_eq_lookup p.2 m (hnd p hp)]
  exact flatten_map_toList level1 fun p => alist_get? p.2 m

theorem site_contrib_eq_map (get : Stats → ℚ) (m : String)
    (level1 : List (String × List (String × Stats)))
    (hnd : ∀ p ∈ level1, (p.2.map Prod.fst).Nodup) :
    site_contrib get m level1 = (metric_stats m level1).map get := by
  rw [site_contrib, metric_stats_eq_lookup m level1 hnd]
  exact filterMap_option_map level1 (fun p => alist_get? p.2 m) get

theorem alist_get?_isSome_of_mem {β : Type} (md : List (String × β)) (m : String)
    (h : m ∈ md.map Prod.fst) : ∃ b, alist_get? md m = some b := by
  induction md with
  | nil => cases h
  | cons q rest ih =>
    rw [alist_get?]
    by_cases hq : q.1 = m
    · exact ⟨q.2, if_pos hq⟩
    · rw [if_neg hq]
      refine ih ?_
      rcases List.mem_cons.mp h with h1 | h1
      · exact absurd h1.symm hq
      · exact h1

theorem site_contrib_length_countP (get : Stats → ℚ) (m : String)
    (level1 : List (String × List (String × Stats))) :
    (site_contrib get m level1).length =
      level1.countP fun p => (alist_get? p.2 m).isSome := by
  rw [site_contrib]
  induction level1 with
  | nil => rfl
  | cons p rest ih =>
    rw [List.filterMap_cons, List.countP_cons]
    cases hp : alist_get? p.2 m with
    | none => simpa [hp] using ih
    | some b => simpa [hp] using ih

theorem metric_stats_ne_nil (m : String)
    (level1 : List (String × List (String × Stats)))
    (hnd : ∀ p ∈ level1, (p.2.map Prod.fst).Nodup)
    (hm : ∃ p ∈ level1, m ∈ p.2.map Prod.fst) :
    metric_stats m level1 ≠ [] := by
  obtain ⟨p, hp, hkey⟩ := hm
  obtain ⟨b, hb⟩ := alist_get?_isSome_of_mem p.2 m hkey
  rw [metric_stats_eq_lookup m level1 hnd]
  exact List.ne_nil_of_mem (List.mem_filterMap.mpr ⟨p, hp, hb⟩)

/-- Claim C5: for each of the three statistics independently, and for
every metric appearing in some site's level-1 output, the global value is
the arithmetic mean of that statistic over exactly the sites reporting the
metric, and the divisor is the count of contributing sites. -/
theorem claim_C5 (level1 : List (String × List (String × Stats)))
    (hnd : ∀ p ∈ level1, (p.2.map Prod.fst).Nodup) (m : String)
    (hm : ∃ p ∈ level1, m ∈ p.2.map Prod.fst) :
    alist_get? (compute_global_avg_for_min_max_avg_metrics level1).min m =
      some ((site_contrib Stats.min m level1).sum /
        ((site_contrib Stats.min m level1).length : ℚ)) ∧
    alist_get? (compute_global_avg_for_min_max_avg_metrics level1).max m =
      some ((site_contrib Stats.max m level1).sum /
        ((site_contrib Stats.max m level1).length : ℚ)) ∧
    alist_get? (compute_global_avg_for_min_max_avg_metrics level1).avg m =
      some ((site_contrib Stats.avg m level1).sum /
        ((site_contrib Stats.avg m level1).length : ℚ)) ∧
    (site_contrib Stats.avg m level1).length =
      level1.countP fun p => (alist_get? p.2 m).isSome := by
  have hms := metric_stats_ne_nil m level1 hnd hm
  have hlen : ∀ get : Stats → ℚ,
      (site_contrib get m level1).length = (metric_stats m level1).length := by
    intro get
    rw [site_contrib_eq_map get m level1 hnd, List.length_map]
  refine ⟨?_, ?_, ?_, site_contrib_length_countP Stats.avg m level1⟩
  · rw [show (compute_global_avg_for_min_max_avg_metrics level1).min =
      global_of Stats.min level1 from rfl]
    rw [global_of_get Stats.min level1 m hms, site_contrib_eq_map Stats.min m level1 hnd,
      List.length_map]
  · rw [show (compute_global_avg_for_min_max_avg_metrics level1).max =
      global_of Stats.max level1 from rfl]
    rw [global_of_get Stats.max level1 m hms, site_contrib_eq_map Stats.max m level1 hnd,
      List.length_map]
  · rw [show (compute_global_avg_for_min_max_avg_metrics level1).avg =
      global_of Stats.avg level1 from rfl]
    rw [global_of_get Stats.avg level1 m hms, site_contrib_eq_map Stats.avg m level1 hnd,
      List.length_map]

/-- Claim C5, witness: two sites, only the first reporting metric "vol";
the global means divide by 1, the count of contributing sites. -/
theorem claim_C5_witness :
    alist_get? (compute_global_avg_for_min_max_avg_metrics c5_level1).min "vol" =
      some ((site_contrib Stats.min "vol" c5_level1).sum /
        ((site_contrib Stats.min "vol" c5_level1).length : ℚ)) ∧
    alist_get? (compute_global_avg_for_min_max_avg_metrics c5_level1).max "vol" =
      some ((site_contrib Stats.max "vol" c5_level1).sum /
        ((site_contrib Stats.max "vol" c5_level1).length : ℚ)) ∧
    alist_get? (compute_global_avg_for_min_max_avg_metrics c5_level1).avg "vol" =
      some ((site_contrib Stats.avg "vol" c5_level1).sum /
        ((site_contrib Stats.avg "vol" c5_level1).length : ℚ)) ∧
    (site_contrib Stats.avg "vol" c5_level1).length =
      c5_level1.countP fun p => (alist_get? p.2 "vol").isSome :=
  claim_C5 c5_level1 (by decide) "vol" (by decide)

theorem mem_metric_stats (m : String) (level1 : List (String × List (String × Stats)))
    (s : Stats) (hs : s ∈ metric_stats m level1) : ∃ p ∈ level1, (m, s) ∈ p.2 := by
  rw [metric_stats] at hs
  obtain ⟨q, hq, hq2⟩ := List.mem_filterMap.mp hs
  obtain ⟨q1, q2⟩ := q
  by_cases hq1 : q1 = m
  · rw [if_pos hq1] at hq2
    injection hq2 with h
    subst h
    rw [all_entries] at hq
    obtain ⟨l, hl, hql⟩ := List.mem_flatten.mp hq
    obtain ⟨p, hp, hpl⟩ := List.mem_map.mp hl
    subst hpl
    subst hq1
    exact ⟨p, hp, hql⟩
  · rw [if_neg hq1] at hq2
    cases hq2

/-- Claim C8: on any level-1 table produced by the per-site reduction, the
global average-of-averages of a reported metric lies between the minimum
of the per-site minima and the maximum of the per-site maxima of that
metric. -/
theorem claim_C8 (sd : List (String × List (String × Option Metrics)))
    (level1 : List (String × List (String × Stats))) (m : String)
    (hok : compute_min_max_avg_per_atomic_label sd = .ok level1)
    (hm : site_contrib Stats.avg m level1 ≠ []) :
    ∃ v, alist_get? (compute_global_avg_for_min_max_avg_metrics level1).avg m = some v ∧
      pymin (site_contrib Stats.min m level1) ≤ v ∧
      v ≤ pymax (site_contrib Stats.max m level1) := by
  have hnd : ∀ p ∈ level1, (p.2.map Prod.fst).Nodup :=
    fun p hp => level1_nodup sd level1 hok p hp
  have hms_ne : metric_stats m level1 ≠ [] := by
    intro h
    rw [site_contrib_eq_map Stats.avg m level1 hnd, h] at hm
    exact hm rfl
  have hwf : ∀ s ∈ metric_stats m level1, s.min ≤ s.avg ∧ s.avg ≤ s.max := by
    intro s hs
    obtain ⟨p, hp, hmem⟩ := mem_metric_stats m level1 s hs
    exact level1_wf sd level1 hok p hp (m, s) hmem
  have hmap_ne : (metric_stats m level1).map Stats.avg ≠ [] := by
    intro h
    exact hms_ne (List.map_eq_nil_iff.mp h)
  have hbound := mean_bounds ((metric_stats m level1).map Stats.avg) hmap_ne
    (pymin ((metric_stats m level1).map Stats.min))
    (pymax ((metric_stats m level1).map Stats.max)) ?_ ?_
  · refine ⟨((metric_stats m level1).map Stats.avg).sum /
      (((metric_stats m level1).map Stats.avg).length : ℚ), ?_, ?_, ?_⟩
    · rw [show (compute_global_avg_for_min_max_avg_metrics level1).avg =
        global_of Stats.avg level1 from rfl]
      rw [global_of_get Stats.avg level1 m hms_ne, List.length_map]
    · rw [site_contrib_eq_map Stats.min m level1 hnd]
      exact hbound.1
    · rw [site_contrib_eq_map Stats.max m level1 hnd]
      exact hbound.2
  · intro x hx
    obtain ⟨s, hs, hsx⟩ := List.mem_map.mp hx
    subst hsx
    calc pymin ((metric_stats m level1).map Stats.min) ≤ s.min :=
        pymin_le_mem _ s.min (List.mem_map.mpr ⟨s, hs, rfl⟩)
    _ ≤ s.avg := (hwf s hs).1
  · intro x hx
    obtain ⟨s, hs, hsx⟩ := List.mem_map.mp hx
    subst hsx
    calc s.avg ≤ s.max := (hwf s hs).2
    _ ≤ pymax ((metric_stats m level1).map Stats.max) :=
        mem_le_pymax _ s.max (List.mem_map.mpr ⟨s, hs, rfl⟩)

/-- A concrete level-0 table for the C8 witness: one site, two methods,
each with a present one-metric record. -/
def c8_site_data : List (String × List (String × Option Metrics)) :=
  [("s1", [("m1", some [("vol", 2)]), ("m2", some [("vol", 4)])])]

/-- Claim C8, witness: the bound applied at a concrete two-method site. -/
theorem claim_C8_witness :
    ∃ v, alist_get? (compute_global_avg_for_min_max_avg_metrics
        [("s1", [("vol", ⟨2, 4, 3⟩)])]).avg "vol" = some v ∧
      pymin (site_contrib Stats.min "vol" [("s1", [("vol", ⟨2, 4, 3⟩)])]) ≤ v ∧
      v ≤ pymax (site_contrib Stats.max "vol" [("s1", [("vol", ⟨2, 4, 3⟩)])]) :=
  claim_C8 c8_site_data [("s1", [("vol", ⟨2, 4, 3⟩)])] "vol"
    (by
      simp [compute_min_max_avg_per_atomic_label, c8_site_data, mapME, collect_go,
        append_val, mkStats, pymin, pymax, Except.map, Bind.bind, Except.bind]
      norm_num
      rfl)
    (by decide)

/-! ## Behaviour of the Polyhedron Metrics Engine (claim C2) -/

theorem method_entry_key {H : Type} (connections : String → List Conn)
    (tryHull : List Point → Option H) (cm : List Point → H → Option Metrics)
    (label : String) (mc : String × ℕ) (r : String × Option Metrics)
    (h : method_entry connections tryHull cm label mc = some r) : r.1 = mc.1 := by
  rw [method_entry] at h
  split at h
  · cases h
  · split at h
    · cases h
      rfl
    · cases h
      rfl

theorem alist_get?_filterMap_none {γ : Type}
    (f : (String × ℕ) → Option (String × γ))
    (hkey : ∀ mc r, f mc = some r → r.1 = mc.1)
    (l : List (String × ℕ)) (m : String) (h : m ∉ l.map Prod.fst) :
    alist_get? (l.filterMap f) m = none := by
  induction l with
  | nil => rfl
  | cons mc rest ih =>
    rw [List.filterMap_cons]
    have hm : mc.1 ≠ m := fun h1 => h (List.mem_cons.mpr (Or.inl h1.symm))
    have hrest : m ∉ rest.map Prod.fst := fun h1 => h (List.mem_cons_of_mem _ h1)
    cases hf : f mc with
    | none => exact ih hrest
    | some r =>
      rw [alist_get?, if_neg ?_]
      · exact ih hrest
      · rw [hkey mc r hf]
        exact hm

theorem alist_get?_filterMap {γ : Type}
    (f : (String × ℕ) → Option (String × γ))
    (hkey : ∀ mc r, f mc = some r → r.1 = mc.1)
    (l : List (String × ℕ)) (hnd : (l.map Prod.fst).Nodup)
    (method : String) (CN : ℕ) (hmc : (method, CN) ∈ l) :
    alist_get? (l.filterMap f) method = (f (method, CN)).map Prod.snd := by
  induction l with
  | nil => cases hmc
  | cons mc rest ih =>
    rw [List.map_cons, List.nodup_cons] at hnd
    rw [List.filterMap_cons]
    by_cases hk : mc.1 = method
    · have hmceq : mc = (method, CN) := by
        rcases List.mem_cons.mp hmc with h1 | h1
        · exact h1.symm
        · exact absurd (hk ▸ List.mem_map.mpr ⟨(method, CN), h1, rfl⟩) hnd.1
      subst hmceq
      cases hf : f (method, CN) with
      | none =>
        rw [alist_get?_filterMap_none f hkey rest method hnd.1]
        rfl
      | some r =>
        rw [alist_get?, if_pos (hkey _ r hf)]
        rfl
    · have h1 : (method, CN) ∈ rest := by
        rcases List.mem_cons.mp hmc with h2 | h2
        · exact absurd (congrArg Prod.fst h2.symm) hk
        · exact h2
      cases hf : f mc with
      | none => exact ih hnd.2 h1
      | some r =>
        rw [alist_get?, if_neg ?_]
        · exact ih hnd.2 h1
        · rw [hkey mc r hf]
          exact hk

theorem alist_get?_map_self {α β : Type} (l : List (String × α))
    (g : String × α → β) (k : String) (a : α)
    (hnd : (l.map Prod.fst).Nodup) (hmem : (k, a) ∈ l) :
    alist_get? (l.map fun p => (p.1, g p)) k = some (g (k, a)) := by
  induction l with
  | nil => cases hmem
  | cons p rest ih =>
    rw [List.map_cons, List.nodup_cons] at hnd
    rw [List.map_cons, alist_get?]
    by_cases hk : p.1 = k
    · rw [if_pos hk]
      have : p = (k, a) := by
        rcases List.mem_cons.mp hmem with h1 | h1
        · exact h1.symm
        · exact absurd (hk ▸ List.mem_map.mpr ⟨(k, a), h1, rfl⟩) hnd.1
      rw [this]
    · rw [if_neg hk]
      refine ih hnd.2 ?_
      rcases List.mem_cons.mp hmem with h1 | h1
      · exact absurd (congrArg Prod.fst h1.symm) hk
      · exact h1

theorem method_entry_skip {H : Type} (connections : String → List Conn)
    (tryHull : List Point → Option H) (cm : List Point → H → Option Metrics)
    (label : String) (mc : String × ℕ)
    (h : ((connections label).take mc.2).length ≤ 3) :
    method_entry connections tryHull cm label mc = none := by
  rw [method_entry]
  cases hc : (connections label).take mc.2 with
  | nil => rfl
  | cons c0 rest =>
    rw [polyhedron_points_of, if_neg ?_]
    rw [hc] at h
    omega

theorem method_entry_hullfail {H : Type} (connections : String → List Conn)
    (tryHull : List Point → Option H) (cm : List Point → H → Option Metrics)
    (label : String) (mc : String × ℕ) (pts : List Point)
    (hpts : polyhedron_points_of ((connections label).take mc.2) = some pts)
    (hfail : tryHull pts = none) :
    method_entry connections tryHull cm label mc = some (mc.1, none) ∧
    method_printed connections tryHull label mc = true := by
  rw [method_entry, method_printed, hpts]
  dsimp only
  rw [hfail]
  exact ⟨rfl, rfl⟩

theorem count_pair_map (l : List (String × ℕ)) (label method : String) :
    ((l.map fun mc => (label, mc.1)).count (label, method)) =
      (l.map Prod.fst).count method := by
  induction l with
  | nil => rfl
  | cons mc rest ih =>
    by_cases hk : mc.1 = method
    · simp [List.count_cons, ih, hk]
    · simp [List.count_cons, ih, hk]

theorem count_flatten_sum {α : Type} [DecidableEq α] (L : List (List α)) (a : α) :
    L.flatten.count a = (L.map fun l => l.count a).sum := by
  induction L with
  | nil => rfl
  | cons l rest ih =>
    rw [List.flatten_cons, List.count_append, List.map_cons, List.sum_cons, ih]

theorem diag_other_count {H : Type} (connections : String → List Conn)
    (tryHull : List Point → Option H) (p : String × List (String × ℕ))
    (label method : String) (h : p.1 ≠ label) :
    ((p.2.filter (method_printed connections tryHull p.1)).map
      fun mc => (p.1, mc.1)).count (label, method) = 0 := by
  rw [List.count_eq_zero]
  intro hmem
  obtain ⟨mc, _, hpair⟩ := List.mem_map.mp hmem
  exact h (congrArg Prod.fst hpair)

theorem diag_count_notin {H : Type} (mg : List (String × List (String × ℕ)))
    (connections : String → List Conn) (tryHull : List Point → Option H)
    (label method : String) (h : label ∉ mg.map Prod.fst) :
    (get_CN_metrics_diag mg connections tryHull).count (label, method) = 0 := by
  induction mg with
  | nil => rfl
  | cons p rest ih =>
    rw [get_CN_metrics_diag, List.map_cons, List.flatten_cons, List.count_append]
    rw [diag_other_count connections tryHull p label method
      (fun h1 => h (List.mem_cons.mpr (Or.inl h1.symm)))]
    have := ih fun h1 => h (List.mem_cons_of_mem _ h1)
    rw [get_CN_metrics_diag] at this
    omega

theorem diag_count_site {H : Type} (mg : List (String × List (String × ℕ)))
    (connections : String → List Conn) (tryHull : List Point → Option H)
    (label : String) (methods : List (String × ℕ))
    (hmem : (label, methods) ∈ mg) (hndL : (mg.map Prod.fst).Nodup) (method : String) :
    (get_CN_metrics_diag mg connections tryHull).count (label, method) =
      ((methods.filter (method_printed connections tryHull label)).map
        fun mc => (label, mc.1)).count (label, method) := by
  induction mg with
  | nil => cases hmem
  | cons p rest ih =>
    rw [List.map_cons, List.nodup_cons] at hndL
    rw [get_CN_metrics_diag, List.map_cons, List.flatten_cons, List.count_append]
    rcases List.mem_cons.mp hmem with h1 | h1
    · rw [show p = (label, methods) from h1.symm]
      dsimp only
      have hnotin : label ∉ rest.map Prod.fst := by
        rw [show p = (label, methods) from h1.symm] at hndL
        exact hndL.1
      have := diag_count_notin rest connections tryHull label method hnotin
      rw [get_CN_metrics_diag] at this
      omega
    · have hp1 : p.1 ≠ label :=
        fun h2 => hndL.1 (h2 ▸ List.mem_map.mpr ⟨(label, methods), h1, rfl⟩)
      rw [diag_other_count connections tryHull p label method hp1]
      have := ih h1 hndL.2
      rw [get_CN_metrics_diag] at this
      omega

/-- Claim C2 (amended): for every site and method, the Polyhedron Metrics
Engine is total (it returns a value for all inputs, never raising); the
site always appears in the output with its per-method map; a method whose
truncated connection list has at most 3 entries is omitted from that map
entirely — there is no record at all for the pair; and a method whose
point set is built but whose hull construction fails maps to an explicit
`none` record, with exactly one diagnostic naming the site and method. -/
theorem claim_C2_amended {H : Type} (max_gaps : List (String × List (String × ℕ)))
    (connections : String → List Conn) (tryHull : List Point → Option H)
    (cm : List Point → H → Option Metrics)
    (label : String) (methods : List (String × ℕ))
    (hmem : (label, methods) ∈ max_gaps)
    (hndL : (max_gaps.map Prod.fst).Nodup)
    (hndM : (methods.map Prod.fst).Nodup)
    (method : String) (CN : ℕ) (hmc : (method, CN) ∈ methods) :
    alist_get? (get_CN_metrics_per_method max_gaps connections tryHull cm) label =
      some (methods.filterMap (method_entry connections tryHull cm label)) ∧
    (((connections label).take CN).length ≤ 3 →
      alist_get? (methods.filterMap (method_entry connections tryHull cm label))
        method = none) ∧
    (∀ pts, polyhedron_points_of ((connections label).take CN) = some pts →
      tryHull pts = none →
      alist_get? (methods.filterMap (method_entry connections tryHull cm label))
          method = some none ∧
      (get_CN_metrics_diag max_gaps connections tryHull).count (label, method) = 1) := by
  have hkey := method_entry_key connections tryHull cm label
  refine ⟨?_, ?_, ?_⟩
  · exact alist_get?_map_self max_gaps
      (fun p => p.2.filterMap (method_entry connections tryHull cm p.1))
      label methods hndL hmem
  · intro hshort
    rw [alist_get?_filterMap _ hkey methods hndM method CN hmc,
      method_entry_skip connections tryHull cm label (method, CN) hshort]
    rfl
  · intro pts hpts hfail
    obtain ⟨hentry, hprint⟩ :=
      method_entry_hullfail connections tryHull cm label (method, CN) pts hpts hfail
    constructor
    · rw [alist_get?_filterMap _ hkey methods hndM method CN hmc, hentry]
      rfl
    · rw [diag_count_site max_gaps connections tryHull label methods hmem hndL method,
        count_pair_map]
      have hsub : ((methods.filter
          (method_printed connections tryHull label)).map Prod.fst).Sublist
          (methods.map Prod.fst) :=
        (List.filter_sublist methods).map Prod.fst
      have hmemf : method ∈ (methods.filter
          (method_printed connections tryHull label)).map Prod.fst := by
        refine List.mem_map.mpr ⟨(method, CN), ?_, rfl⟩
        exact List.mem_filter.mpr ⟨hmc, hprint⟩
      have hndf := hndM.sublist hsub
      exact List.count_eq_one_of_mem hndf hmemf

/-- Claim C2, witness: a one-site input whose single method has CN = 4 and
whose hull construction fails: the site is present, the pair maps to an
explicit `none`, and exactly one diagnostic (site, method) is emitted. -/
theorem claim_C2_witness :
    alist_get? (get_CN_metrics_per_method [("Th1", [("m1", 4)])] scenario_conns
        (fun _ => (none : Option Unit)) (fun _ _ => none)) "Th1" =
      some ([("m1", 4)].filterMap (method_entry scenario_conns
        (fun _ => (none : Option Unit)) (fun _ _ => none) "Th1")) ∧
    (((scenario_conns "Th1").take 4).length ≤ 3 →
      alist_get? ([("m1", 4)].filterMap (method_entry scenario_conns
        (fun _ => (none : Option Unit)) (fun _ _ => none) "Th1")) "m1" = none) ∧
    (∀ pts, polyhedron_points_of ((scenario_conns "Th1").take 4) = some pts →
      (fun _ => (none : Option Unit)) pts = none →
      alist_get? ([("m1", 4)].filterMap (method_entry scenario_conns
          (fun _ => (none : Option Unit)) (fun _ _ => none) "Th1")) "m1" = some none ∧
      (get_CN_metrics_diag [("Th1", [("m1", 4)])] scenario_conns
        (fun _ => (none : Option Unit))).count ("Th1", "m1") = 1) :=
  claim_C2_amended [("Th1", [("m1", 4)])] scenario_conns
    (fun _ => (none : Option Unit)) (fun _ _ => none) "Th1" [("m1", 4)]
    (by decide) (by decide) (by decide) "m1" 4 (by decide)

end SAF
